import Mathlib

/-!
Verification of the mincbot fleet coordinator.

This file embeds, as executable Lean definitions, the parts of the
repository that the specification talks about:

* the task orchestrator of src/bots/all_bots.js (class CommandProcessor):
  progress aggregation (calculateOverallProgress, getResourceProgress,
  getCoordinateProgress, initializeTaskTracking), admin management
  (addAdmin, removeAdmin), and the two command-processing entry points
  (processCommand and processNaturalCommand);
* the per-agent behaviour of the BotProperties class
  (src/unnamed/part_000): the tick boundary around update(), setGoal
  deduplication, the sleep check of handleSleeping, the staged
  resource-progression logic of handleBasicResourceGathering and
  craftBasicTools, and the cooldown-gated chat next to the ungated
  world-client chat calls that give() makes.

The theorems at the end of the file settle the specification claims
against these definitions.
-/

namespace MincBot

/-
=======================================================================
JavaScript numbers for the progress arithmetic
=======================================================================
-/

/-- A JavaScript numeric value as it arises in the orchestrator's progress
arithmetic: either an ordinary finite number (modelled as a rational) or the
IEEE NaN produced by the division 0/0 when a dimension map is empty.  The
operations below follow the JavaScript semantics on these values: NaN
propagates through addition and multiplication, and Math.min returns NaN
when an argument is NaN. -/
inductive JSNum where
  | nan : JSNum
  | num : ℚ → JSNum
deriving DecidableEq, Repr

/-- JavaScript addition restricted to the values above: NaN absorbs. -/
def JSNum.add : JSNum → JSNum → JSNum
  | JSNum.num a, JSNum.num b => JSNum.num (a + b)
  | _, _ => JSNum.nan

/-- JavaScript multiplication restricted to the values above: NaN absorbs. -/
def JSNum.mul : JSNum → JSNum → JSNum
  | JSNum.num a, JSNum.num b => JSNum.num (a * b)
  | _, _ => JSNum.nan

/-- Math.min with a finite second argument; Math.min(NaN, c) is NaN. -/
def JSNum.minConst : JSNum → ℚ → JSNum
  | JSNum.nan, _ => JSNum.nan
  | JSNum.num a, c => JSNum.num (min a c)

/-
=======================================================================
Task progress aggregation (CommandProcessor, src/bots/all_bots.js)
=======================================================================
-/

/-- One dimension of a task's progress record: a JS Map from a key (bot
name, resource name, or the string "travel") to a numeric progress value,
modelled as an association list in insertion order, exactly as a JS Map
iterates. -/
abbrev Dim := List (String × ℚ)

/-- Array.from(map.values()).reduce of addition with initial value 0. -/
def dimSum (m : Dim) : ℚ := (m.map Prod.snd).sum

/-- The per-dimension average computed inside calculateOverallProgress:
the reduce-sum divided by map.size.  When the map is empty this is the
JavaScript division 0 / 0, which yields NaN. -/
def dimAvg (m : Dim) : JSNum :=
  if m.length = 0 then JSNum.nan else JSNum.num (dimSum m / (m.length : ℚ))

/-- The three dimension maps of the record stored in this.taskProgress,
as consumed by calculateOverallProgress. -/
structure Progress where
  bots : Dim
  resources : Dim
  coordinates : Dim
deriving DecidableEq, Repr

/-- CommandProcessor.calculateOverallProgress (src/bots/all_bots.js lines
692-714): overall starts at 0 and accumulates average(dimension) * weight
for the weights bots 0.4, resources 0.3, coordinates 0.3; the result is
finally passed through Math.min(overall, 100).  There is no lower clamp
anywhere. -/
def calculateOverallProgress (p : Progress) : JSNum :=
  let overall0 := JSNum.num 0
  let overall1 := overall0.add ((dimAvg p.bots).mul (JSNum.num (4 / 10)))
  let overall2 := overall1.add ((dimAvg p.resources).mul (JSNum.num (3 / 10)))
  let overall3 := overall2.add ((dimAvg p.coordinates).mul (JSNum.num (3 / 10)))
  overall3.minConst 100

/-- The per-resource percentage of CommandProcessor.getResourceProgress:
Math.min(current / required * 100, 100).  Clamped from above only. -/
def resourcePercent (current required : ℚ) : ℚ :=
  min (current / required * 100) 100

/-- CommandProcessor.getResourceProgress (lines 664-675): one entry per
required material, each the clamped percentage of the current count
against the required count. -/
def getResourceProgress (materials : List (String × ℚ)) (currentOf : String → ℚ) : Dim :=
  materials.map (fun m => (m.1, resourcePercent (currentOf m.1) m.2))

/-- The travel percentage of CommandProcessor.getCoordinateProgress:
Math.min((totalDistance - distance) / totalDistance * 100, 100).  When the
remaining distance exceeds the planned total distance this is negative;
only the upper bound is clamped. -/
def coordinatePercent (distance totalDistance : ℚ) : ℚ :=
  min ((totalDistance - distance) / totalDistance * 100) 100

/-- CommandProcessor.getCoordinateProgress (lines 677-690): an empty map
when the task has no target location, otherwise the single key "travel"
mapped to the clamped travel percentage. -/
def getCoordinateProgress (hasLocation : Bool) (distance totalDistance : ℚ) : Dim :=
  if hasLocation then [("travel", coordinatePercent distance totalDistance)] else []

/-- The progress record created by CommandProcessor.initializeTaskTracking
(lines 808-836) and stored in this.taskProgress: overall 0, one zero step
per plan step, one zero entry per target bot, and empty resource and
coordinate maps. -/
structure TaskProgress where
  overall : ℚ
  steps : List ℚ
  bots : Dim
  resources : Dim
  coordinates : Dim
deriving DecidableEq, Repr

/-- The this.taskProgress entry written by initializeTaskTracking. -/
def initTaskProgress (parsedBots : List String) (numSteps : ℕ) : TaskProgress :=
  { overall := 0
  , steps := List.replicate numSteps 0
  , bots := parsedBots.map (fun b => (b, 0))
  , resources := []
  , coordinates := [] }

/-- The three dimension maps of a stored progress record, as handed to
calculateOverallProgress by updateProgress. -/
def TaskProgress.toProgress (tp : TaskProgress) : Progress :=
  { bots := tp.bots, resources := tp.resources, coordinates := tp.coordinates }

/-- Progress record of a running task whose single bot and single required
resource report 0 and whose travel dimension is computed at the moment the
remaining distance equals 0: travel is clamped to 100 and overall is 30. -/
def c1Progress1 : Progress :=
  { bots := [("Bot1", 0)]
  , resources := [("oak_log", 0)]
  , coordinates := getCoordinateProgress true 0 100 }

/-- The same task one update later, after its bot wandered 300 blocks from
a target whose planned total distance was 100: the travel percentage is
(100 - 300) / 100 * 100 = -200, which Math.min leaves untouched.  The
weighted overall becomes -60. -/
def c1Progress2 : Progress :=
  { bots := [("Bot1", 0)]
  , resources := [("oak_log", 0)]
  , coordinates := getCoordinateProgress true 300 100 }

/-
=======================================================================
Admin management (CommandProcessor, src/bots/all_bots.js)
=======================================================================
-/

/-- A permissions record stored in this.adminPermissions. -/
structure AdminPerms where
  level : String
  permissions : List String
deriving DecidableEq, Repr

/-- The super-admin record installed by initializeAdminPermissions. -/
def superAdminPerms : AdminPerms :=
  { level := "super_admin"
  , permissions :=
      ["all_commands", "manage_admins", "manage_bots", "manage_teams",
       "teleport_anywhere", "override_limits"] }

/-- The record addAdmin installs for a newly added admin. -/
def defaultAdminPerms : AdminPerms :=
  { level := "admin"
  , permissions := ["basic_commands", "manage_bots", "manage_teams"] }

/-- The admin-related state of a CommandProcessor: the this.admins Set and
the this.adminPermissions Map, both modelled as lists in insertion order
with JS Set/Map semantics for add, set and delete. -/
structure AdminState where
  admins : List String
  adminPermissions : List (String × AdminPerms)
deriving DecidableEq, Repr

/-- The constructor state: admins = Set(['CodeDevPro']) plus the
permissions installed by initializeAdminPermissions. -/
def initialAdminState : AdminState :=
  { admins := ["CodeDevPro"]
  , adminPermissions := [("CodeDevPro", superAdminPerms)] }

/-- JS Set.add: a no-op when the element is already present. -/
def setAdd (s : List String) (x : String) : List String :=
  if x ∈ s then s else s ++ [x]

/-- JS Set.delete: removes the element. -/
def setDelete (s : List String) (x : String) : List String :=
  s.filter (fun y => decide (y ≠ x))

/-- JS Map.set: replaces the value when the key is present, appends
otherwise. -/
def mapSet (m : List (String × AdminPerms)) (k : String) (v : AdminPerms) :
    List (String × AdminPerms) :=
  if m.any (fun kv => decide (kv.1 = k)) then
    m.map (fun kv => if kv.1 = k then (k, v) else kv)
  else m ++ [(k, v)]

/-- JS Map.delete: removes the key. -/
def mapDelete (m : List (String × AdminPerms)) (k : String) :
    List (String × AdminPerms) :=
  m.filter (fun kv => decide (kv.1 ≠ k))

/-- CommandProcessor.addAdmin (lines 425-443): refuses an existing admin,
otherwise adds the name to the set and installs the default admin
permissions. -/
def addAdmin (st : AdminState) (adminName : String) : Bool × AdminState :=
  if adminName ∈ st.admins then (false, st)
  else
    (true,
      { admins := setAdd st.admins adminName
      , adminPermissions := mapSet st.adminPermissions adminName defaultAdminPerms })

/-- CommandProcessor.removeAdmin (lines 445-454): refuses to remove the
super admin CodeDevPro, otherwise deletes the name from the set and from
the permissions map. -/
def removeAdmin (st : AdminState) (adminName : String) : Bool × AdminState :=
  if adminName = "CodeDevPro" then (false, st)
  else
    (true,
      { admins := setDelete st.admins adminName
      , adminPermissions := mapDelete st.adminPermissions adminName })

/-- A call to addAdmin or removeAdmin, identified by its argument. -/
inductive AdminOp where
  | add (name : String)
  | remove (name : String)
deriving DecidableEq, Repr

/-- The state after one admin-management call. -/
def applyAdminOp (st : AdminState) (op : AdminOp) : AdminState :=
  match op with
  | AdminOp.add n => (addAdmin st n).2
  | AdminOp.remove n => (removeAdmin st n).2

/-- The admin state after a sequence of addAdmin/removeAdmin calls on a
freshly constructed CommandProcessor. -/
def runAdminOps (ops : List AdminOp) : AdminState :=
  ops.foldl applyAdminOp initialAdminState

/-
=======================================================================
String containment and the bot-name scanner (intent extraction)
=======================================================================
-/

/-- Character-list helper: the second list starts the first one. -/
def leadMatch : List Char → List Char → Bool
  | _, [] => true
  | [], _ :: _ => false
  | c :: cs, d :: ds => c == d && leadMatch cs ds

/-- Character-list helper: the second list occurs inside the first one. -/
def hasSub : List Char → List Char → Bool
  | _, [] => true
  | [], _ :: _ => false
  | c :: cs, d :: ds => leadMatch (c :: cs) (d :: ds) || hasSub cs (d :: ds)

/-- JavaScript String.prototype.includes. -/
def strIncludes (hay needle : String) : Bool :=
  hasSub hay.data needle.data

/-- ASCII lowercase of one character, as toLowerCase acts on the command
vocabulary. -/
def charToLower (c : Char) : Char :=
  if 'A' ≤ c ∧ c ≤ 'Z' then Char.ofNat (c.toNat + 32) else c

/-- JavaScript String.prototype.toLowerCase on ASCII text. -/
def strToLower (s : String) : String :=
  String.mk (s.data.map charToLower)

/-- JavaScript String.prototype.endsWith. -/
def strEndsWith (s suffixStr : String) : Bool :=
  leadMatch s.data.reverse suffixStr.data.reverse

/-- Drops leading JavaScript regex whitespace. -/
def dropSpaces : List Char → List Char
  | [] => []
  | c :: cs => if c.isWhitespace then dropSpaces cs else c :: cs

/-- Splits off a maximal leading run of decimal digits. -/
def takeDigits : List Char → List Char × List Char
  | [] => ([], [])
  | c :: cs =>
      if c.isDigit then
        let p := takeDigits cs
        (c :: p.1, p.2)
      else ([], c :: cs)

/-- One attempted match of the extractBotNames regex (bot|bots?)\s*(digits)
at the head of the list, on already-lowercased text: "bot", then an
optional "s" (tried only when no digits follow directly, as the regex
alternation backtracks), then whitespace, then at least one digit.
Returns the digit group and the remainder after the match. -/
def matchBotNum (l : List Char) : Option (List Char × List Char) :=
  match l with
  | 'b' :: 'o' :: 't' :: rest =>
      let attempt := fun (r : List Char) =>
        let r1 := dropSpaces r
        let p := takeDigits r1
        if p.1.isEmpty then none else some (p.1, p.2)
      (match attempt rest with
       | some x => some x
       | none =>
           match rest with
           | 's' :: rest2 => attempt rest2
           | _ => none)
  | _ => none

/-- The global scan of the extractBotNames regex: left to right, resuming
after each match.  The fuel argument (instantiated with the text length)
bounds the recursion; every step consumes at least one character. -/
def botNumScan : ℕ → List Char → List String
  | 0, _ => []
  | _ + 1, [] => []
  | fuel + 1, c :: cs =>
      match matchBotNum (c :: cs) with
      | some (ds, rest) => String.mk ds :: botNumScan fuel rest
      | none => botNumScan fuel cs

/-
=======================================================================
Natural-language command path (CommandProcessor, src/bots/all_bots.js)
=======================================================================
-/

/-- An entry of the this.commands table loaded from action_commands.json;
only its admin_only flag is consulted by processCommand. -/
structure CommandDef where
  admin_only : Bool
deriving DecidableEq, Repr

/-- The destructured fields of a commandData object. -/
structure CommandData where
  type : String
  action : String
  target : String
  username : String
deriving DecidableEq, Repr

/-- What processCommand does with a command: reject it for lacking admin
rights (return false before any handler), dispatch it to the handler for
its type, or log an unknown type. -/
inductive CmdOutcome where
  | rejectedUnauthorized
  | dispatched (t : String)
  | unknownType
deriving DecidableEq, Repr

/-- The intent extracted by parseNaturalCommand. -/
structure ParsedCommand where
  bots : List String
  action : Option (String × String)
  item : Option String
  quantity : Option String
  location : Option String
  originalCommand : String
deriving DecidableEq, Repr

/-- The task record stored into this.activeTasks by
initializeTaskTracking; the analysis produced by the external
analyzeCommand call is abstracted by its number of plan steps. -/
structure TaskInfo where
  command : String
  bots : List String
  action : Option (String × String)
  item : Option String
  quantity : Option String
  location : Option String
  status : String
  progress : ℚ
  currentStep : ℕ
  totalSteps : ℕ
deriving DecidableEq, Repr

/-- The orchestrator state touched by the two command-processing entry
points: the commands table keyed by action name, the category and
vocabulary tables used by intent extraction, the admins set, the names of
the registered bots, and the task registries. -/
structure Orchestrator where
  commands : List (String × CommandDef)
  commandCategories : List (String × List String)
  items : List String
  quantities : List String
  locations : List String
  admins : List String
  botNames : List String
  activeTasks : List (String × TaskInfo)
  taskProgressMap : List (String × TaskProgress)
deriving Repr

/-- this.commands[action]. -/
def lookupCommand (o : Orchestrator) (action : String) : Option CommandDef :=
  List.lookup action o.commands

/-- CommandProcessor.isAdmin: membership in the this.admins set. -/
def isAdminOf (o : Orchestrator) (username : String) : Bool :=
  decide (username ∈ o.admins)

/-- CommandProcessor.processCommand (lines 86-115): the admin_only gate
(command?.admin_only is falsy when the action is unknown), then the switch
on the command type. -/
def processCommand (o : Orchestrator) (cd : CommandData) : CmdOutcome :=
  let adminOnly :=
    match lookupCommand o cd.action with
    | some c => c.admin_only
    | none => false
  if adminOnly && !(isAdminOf o cd.username) then CmdOutcome.rejectedUnauthorized
  else if cd.type = "message" ∨ cd.type = "action" ∨ cd.type = "status" ∨
          cd.type = "team" ∨ cd.type = "admin"
       then CmdOutcome.dispatched cd.type
       else CmdOutcome.unknownType

/-- The inner loop of extractAction: the first listed action keyword
contained in the command wins. -/
def findActionIn (command : String) (category : String) : List String → Option (String × String)
  | [] => none
  | a :: rest =>
      if strIncludes command a then some (category, a)
      else findActionIn command category rest

/-- CommandProcessor.extractAction (lines 550-562): scan the category
table in order; inside a category, scan its keywords in order. -/
def extractAction (cats : List (String × List String)) (command : String) :
    Option (String × String) :=
  match cats with
  | [] => none
  | (cat, actions) :: rest =>
      match findActionIn command cat actions with
      | some r => some r
      | none => extractAction rest command

/-- The extractParameters loops overwrite the field on every match, so the
last listed vocabulary entry contained in the command wins. -/
def lastIncluded (command : String) : List String → Option String
  | [] => none
  | x :: rest =>
      match lastIncluded command rest with
      | some r => some r
      | none => if strIncludes command x then some x else none

/-- CommandProcessor.extractLocation (lines 584-591): the first listed
location contained in the command wins. -/
def firstIncluded (command : String) : List String → Option String
  | [] => none
  | x :: rest => if strIncludes command x then some x else firstIncluded command rest

/-- CommandProcessor.extractBotNames (lines 539-548): "all bots" expands
to every registered bot, otherwise each regex match of (bot|bots?)\s*(d+)
contributes the name Bot followed by the digit group. -/
def extractBotNames (o : Orchestrator) (command : String) : List String :=
  if strIncludes command "all bots" then o.botNames
  else (botNumScan command.data.length command.data).map (fun ds => "Bot" ++ ds)

/-- CommandProcessor.parseNaturalCommand (lines 515-537): lowercases the
command and runs the four extractors. -/
def parseNaturalCommand (o : Orchestrator) (command : String) : ParsedCommand :=
  let commandLower := strToLower command
  { bots := extractBotNames o commandLower
  , action := extractAction o.commandCategories commandLower
  , item := lastIncluded commandLower o.items
  , quantity := lastIncluded commandLower o.quantities
  , location := firstIncluded commandLower o.locations
  , originalCommand := command }

/-- CommandProcessor.initializeTaskTracking (lines 808-836): records the
task info under the fresh task id in this.activeTasks and the zeroed
progress record in this.taskProgress. -/
def initializeTaskTracking (o : Orchestrator) (taskId : String) (parsed : ParsedCommand)
    (analysisSteps : ℕ) : Orchestrator :=
  let taskInfo : TaskInfo :=
    { command := parsed.originalCommand
    , bots := parsed.bots
    , action := parsed.action
    , item := parsed.item
    , quantity := parsed.quantity
    , location := parsed.location
    , status := "initialized"
    , progress := 0
    , currentStep := 0
    , totalSteps := analysisSteps }
  { o with
    activeTasks := o.activeTasks ++ [(taskId, taskInfo)]
  , taskProgressMap := o.taskProgressMap ++ [(taskId, initTaskProgress parsed.bots analysisSteps)] }

/-- CommandProcessor.processNaturalCommand (lines 493-513): parse the
command, generate a task id (built from Date.now and Math.random, taken
here as an argument), initialize task tracking, then execute with progress
tracking.  The username is only logged: no admin or privilege check
appears anywhere on this path. -/
def processNaturalCommand (o : Orchestrator) (command : String) (_username : String)
    (taskId : String) (analysisSteps : ℕ) : Orchestrator :=
  let parsed := parseNaturalCommand o command
  initializeTaskTracking o taskId parsed analysisSteps

/-- A concrete orchestrator whose commands table marks the teleport action
admin_only and whose only admin is CodeDevPro. -/
def c8Orchestrator : Orchestrator :=
  { commands := [("teleport", { admin_only := true })]
  , commandCategories := [("movement", ["teleport", "goto"])]
  , items := ["wood", "stone"]
  , quantities := ["10"]
  , locations := ["base"]
  , admins := ["CodeDevPro"]
  , botNames := ["Bot1", "Bot2"]
  , activeTasks := []
  , taskProgressMap := [] }

/-
=======================================================================
Agent data model (BotProperties, src/unnamed/part_000)
=======================================================================
-/

/-- The behaviour states a BotProperties instance assigns to this.state. -/
inductive BotState where
  | idle
  | gatheringWood
  | craftingCraftingTable
  | placingCraftingTable
  | craftingTools
  | movingToCraftingTable
  | movingToSleep
  | sleeping
  | following
  | exploring
  | mining
  | building
deriving DecidableEq, Repr

/-- An integer block position. -/
structure Pos where
  x : ℤ
  y : ℤ
  z : ℤ
deriving DecidableEq, Repr

/-- The pathfinder goal classes used by BotProperties. -/
inductive GoalKind where
  | goalNear
  | goalGetToBlock
  | goalFollow
deriving DecidableEq, Repr

/-- A pathfinder goal: its class together with its destination field (a
follow goal carries no destination, so the field is none for it). -/
structure Goal where
  kind : GoalKind
  destination : Option Pos
deriving DecidableEq, Repr

/-
=======================================================================
C2: the tick boundary around update()
=======================================================================
-/

/-- The agent fields the tick-boundary claim is about. -/
structure AgentCore where
  state : BotState
  currentGoal : Option Goal
deriving DecidableEq, Repr

/-- The tick handler installed by createBot (src/bots/all_bots.js lines
969-978): bot.botProps.update() runs inside try/catch and the catch only
logs the error message.  An exception may escape update() after it has
mutated the agent in place, so a throwing update is modelled as returning
the error message together with the agent as it stood when the exception
escaped; the catch block leaves that agent untouched. -/
def tickWithCatch (updateFn : AgentCore → Except (String × AgentCore) AgentCore)
    (a : AgentCore) : AgentCore :=
  match updateFn a with
  | Except.ok a2 => a2
  | Except.error e => e.2

/-- A concrete navigation goal for the tick-boundary example. -/
def exGoal : Goal :=
  { kind := GoalKind.goalGetToBlock, destination := some { x := 10, y := 64, z := -3 } }

/-- An agent caught mid-gathering with an active navigation goal. -/
def exStuckAgent : AgentCore :=
  { state := BotState.gatheringWood, currentGoal := some exGoal }

/-- An update whose state action throws (for example the dig primitive
rejecting) while the agent is mid-gathering: the exception escapes with
the agent unchanged from exStuckAgent. -/
def exThrowingUpdate : AgentCore → Except (String × AgentCore) AgentCore :=
  fun _ => Except.error ("Digging aborted", exStuckAgent)

/-
=======================================================================
C3: setGoal deduplication (BotProperties.setGoal)
=======================================================================
-/

/-- A request issued to the world client by setGoal: a pathfinder stop or
a goal submission. -/
inductive NavEvent where
  | stop
  | submit (g : Goal)
deriving DecidableEq, Repr

/-- The navigation-related agent state read and written by setGoal:
this.state, this.currentGoal and the pathfinder's own active goal. -/
structure NavState where
  state : BotState
  currentGoal : Option Goal
  pathfinderGoal : Option Goal
deriving DecidableEq, Repr

/-- The goal-identity test at the head of BotProperties.setGoal (lines
741-742): this.currentGoal.constructor === goal.constructor compares the
goal classes, and JSON.stringify is applied to the destination field of
each goal (undefined for a follow goal), so the test is structural
equality of kind and optional destination. -/
def sameGoal (g1 g2 : Goal) : Bool :=
  decide (g1.kind = g2.kind) && decide (g1.destination = g2.destination)

/-- The body of setGoal past the identity test: stop the pathfinder if a
goal is active, store the new goal, and submit it when non-null.  submitOk
says whether pathfinder.setGoal accepts the submission; on a rejection the
stored goal is cleared and the state forced to idle (lines 749-767). -/
def setGoalProceed (ns : NavState) (goal : Option Goal) (submitOk : Bool) :
    NavState × List NavEvent :=
  let stopEvents := if ns.pathfinderGoal.isSome then [NavEvent.stop] else []
  match goal with
  | some g =>
      if submitOk then
        ({ state := ns.state, currentGoal := some g, pathfinderGoal := some g },
         stopEvents ++ [NavEvent.submit g])
      else
        ({ state := BotState.idle, currentGoal := none, pathfinderGoal := none },
         stopEvents ++ [NavEvent.submit g])
  | none =>
      ({ state := ns.state, currentGoal := none, pathfinderGoal := none }, stopEvents)

/-- BotProperties.setGoal (src/unnamed/part_000 lines 739-768): when both
the current and the new goal exist and are structurally identical the call
returns immediately, issuing nothing to the world client. -/
def setGoal (ns : NavState) (goal : Option Goal) (submitOk : Bool) :
    NavState × List NavEvent :=
  match ns.currentGoal, goal with
  | some cur, some g =>
      if sameGoal cur g then (ns, [])
      else setGoalProceed ns goal submitOk
  | some _, none => setGoalProceed ns goal submitOk
  | none, _ => setGoalProceed ns goal submitOk

/-- The number of goal submissions among a list of requests. -/
def countSubmits (events : List NavEvent) : ℕ :=
  (events.filter (fun e => match e with | NavEvent.submit _ => true | _ => false)).length

/-- A fresh navigation state with no goal anywhere. -/
def freshNavState : NavState :=
  { state := BotState.idle, currentGoal := none, pathfinderGoal := none }

/-- A navigation state already pursuing the example goal. -/
def busyNavState : NavState :=
  { state := BotState.idle, currentGoal := some exGoal, pathfinderGoal := some exGoal }

/-
=======================================================================
C4: the staged resource progression (handleBasicResourceGathering)
=======================================================================
-/

/-- An inventory as mirrored into this.inventory by update(): one entry
per item stack. -/
abbrev Inventory := List (String × ℕ)

/-- Total count of an item across the inventory. -/
def invCount (inv : Inventory) (item : String) : ℕ :=
  ((inv.filter (fun it => decide (it.1 = item))).map Prod.snd).sum

/-- The raw-log names recognised by the planner. -/
def woodItems : List String :=
  ["oak_log", "spruce_log", "birch_log", "jungle_log", "acacia_log", "dark_oak_log"]

/-- The wood-equivalent count of lines 916-924: each raw log counts 1 and
each item whose name ends in _planks counts a quarter. -/
def woodEquivalent (inv : Inventory) : ℚ :=
  (inv.map (fun it =>
    if woodItems.contains it.1 then (it.2 : ℚ)
    else if strEndsWith it.1 "_planks" then (it.2 : ℚ) / 4
    else 0)).sum

/-- The raw-resource threshold this.requiredWoodCount (line 490). -/
def requiredWoodCount : ℚ := 20

/-- The world-client responses consulted during one pass of
handleBasicResourceGathering: the inventory snapshot, whether a placed
crafting table is within the 16-block search radius, and the outcomes of
the recipe lookups and craft calls the station stage may make. -/
structure GatherEnv where
  inventory : Inventory
  craftingTableBlockNearby : Bool
  tableRecipeFound : Bool
  tableCraftSucceeds : Bool
  plankRecipeFound : Bool
  plankCraftSucceeds : Bool
deriving DecidableEq, Repr

/-- inventory.findInventoryItem(crafting_table) returned a stack. -/
def craftingTableItemPresent (env : GatherEnv) : Bool :=
  decide (0 < invCount env.inventory "crafting_table")

/-- this.hasCraftingTable as recomputed on lines 927-932: a crafting table
in the inventory or a placed one within the search radius. -/
def hasCraftingTableOf (env : GatherEnv) : Bool :=
  craftingTableItemPresent env || env.craftingTableBlockNearby

/-- What one pass of handleBasicResourceGathering did, one constructor per
exit point of the function body. -/
inductive GatherStep where
  | flagClear
  | toGatherWood
  | placeTableAborted
  | stationNoOp
  | craftTableAttempt (ok : Bool)
  | craftTableNoRecipe
  | craftPlanksAttempt (ok : Bool)
  | craftPlanksNoRecipe
  | craftPlanksNotEnoughLogs
  | craftPlanksNoLogs
  | reportNeedWood
  | craftToolsInvoke
  | toolsNoOp
  | completeBasicGathering
deriving DecidableEq, Repr

/-- The agent fields written by one pass of handleBasicResourceGathering,
together with the step taken. -/
structure GatherResult where
  state : BotState
  needsBasicResources : Bool
  step : GatherStep
deriving DecidableEq, Repr

/-- The station stage (lines 948-1035): place a held table (unimplemented,
aborts to idle), else craft one when 4 oak planks are at hand, else craft
planks from the first log stack, else report the wood shortage.  All of it
is skipped while this.state already equals the in-progress marker state of
the respective sub-branch. -/
def stationStageAction (st : BotState) (env : GatherEnv) (needs : Bool) : GatherResult :=
  if craftingTableItemPresent env then
    if st = BotState.placingCraftingTable then
      { state := st, needsBasicResources := needs, step := GatherStep.stationNoOp }
    else
      { state := BotState.idle, needsBasicResources := needs, step := GatherStep.placeTableAborted }
  else
    if st = BotState.craftingCraftingTable then
      { state := st, needsBasicResources := needs, step := GatherStep.stationNoOp }
    else
      let planksCount := invCount env.inventory "oak_planks"
      if 4 ≤ planksCount then
        if env.tableRecipeFound then
          { state := BotState.idle, needsBasicResources := needs
          , step := GatherStep.craftTableAttempt env.tableCraftSucceeds }
        else
          { state := BotState.idle, needsBasicResources := needs
          , step := GatherStep.craftTableNoRecipe }
      else
        if 0 < woodEquivalent env.inventory then
          match env.inventory.find? (fun it => woodItems.contains it.1) with
          | some stack =>
              if env.plankRecipeFound then
                let neededPlanks := 4 - planksCount
                let neededLogs := (neededPlanks + 3) / 4
                let logsToCraft := min stack.2 neededLogs
                if 0 < logsToCraft then
                  if env.plankCraftSucceeds then
                    { state := BotState.craftingCraftingTable, needsBasicResources := needs
                    , step := GatherStep.craftPlanksAttempt true }
                  else
                    { state := BotState.idle, needsBasicResources := needs
                    , step := GatherStep.craftPlanksAttempt false }
                else
                  { state := BotState.idle, needsBasicResources := needs
                  , step := GatherStep.craftPlanksNotEnoughLogs }
              else
                { state := BotState.idle, needsBasicResources := needs
                , step := GatherStep.craftPlanksNoRecipe }
          | none =>
              { state := BotState.idle, needsBasicResources := needs
              , step := GatherStep.craftPlanksNoLogs }
        else
          { state := BotState.gatheringWood, needsBasicResources := needs
          , step := GatherStep.reportNeedWood }

/-- The tool stage (lines 1038-1054): invoke craftBasicTools when a basic
tool is missing (unless the state already marks tool crafting), otherwise
clear the needs-basic-resources flag and return to idle. -/
def toolsStageAction (st : BotState) (env : GatherEnv) (needs : Bool) : GatherResult :=
  let hasWoodAxe := decide (0 < invCount env.inventory "wooden_axe")
  let hasWoodPickaxe := decide (0 < invCount env.inventory "wooden_pickaxe")
  if !hasWoodAxe || !hasWoodPickaxe then
    if st = BotState.craftingTools then
      { state := st, needsBasicResources := needs, step := GatherStep.toolsNoOp }
    else
      { state := BotState.craftingTools, needsBasicResources := needs
      , step := GatherStep.craftToolsInvoke }
  else
    { state := BotState.idle, needsBasicResources := false
    , step := GatherStep.completeBasicGathering }

/-- BotProperties.handleBasicResourceGathering (src/unnamed/part_000 lines
910-1056): return at once when the needs-basic-resources flag is clear;
else force the gathering state while the wood equivalent is below the
threshold; else run the station stage while no crafting table exists; else
run the tool stage. -/
def handleBasicResourceGathering (needs : Bool) (st : BotState) (env : GatherEnv) :
    GatherResult :=
  if needs = false then
    { state := st, needsBasicResources := needs, step := GatherStep.flagClear }
  else if woodEquivalent env.inventory < requiredWoodCount then
    { state := BotState.gatheringWood, needsBasicResources := needs
    , step := GatherStep.toGatherWood }
  else if hasCraftingTableOf env = false then
    stationStageAction st env needs
  else
    toolsStageAction st env needs

/-- The stage a pass of the planner acted in. -/
inductive Stage where
  | raw
  | station
  | tools
deriving DecidableEq, Repr

/-- The stage the planner should be in for a given snapshot, read off the
guard chain: raw below the wood threshold, then station while no crafting
table exists, then tools. -/
def stageOf (env : GatherEnv) : Stage :=
  if woodEquivalent env.inventory < requiredWoodCount then Stage.raw
  else if hasCraftingTableOf env = false then Stage.station
  else Stage.tools

/-- The stage each step belongs to (none for the flag-clear early
return). -/
def stepStage : GatherStep → Option Stage
  | GatherStep.flagClear => none
  | GatherStep.toGatherWood => some Stage.raw
  | GatherStep.placeTableAborted => some Stage.station
  | GatherStep.stationNoOp => some Stage.station
  | GatherStep.craftTableAttempt _ => some Stage.station
  | GatherStep.craftTableNoRecipe => some Stage.station
  | GatherStep.craftPlanksAttempt _ => some Stage.station
  | GatherStep.craftPlanksNoRecipe => some Stage.station
  | GatherStep.craftPlanksNotEnoughLogs => some Stage.station
  | GatherStep.craftPlanksNoLogs => some Stage.station
  | GatherStep.reportNeedWood => some Stage.station
  | GatherStep.craftToolsInvoke => some Stage.tools
  | GatherStep.toolsNoOp => some Stage.tools
  | GatherStep.completeBasicGathering => some Stage.tools

/-- The steps that invoke the craft primitive for the station stage. -/
def isStationCraftStep : GatherStep → Bool
  | GatherStep.craftTableAttempt _ => true
  | GatherStep.craftPlanksAttempt _ => true
  | _ => false

/-- The step that launches tool crafting. -/
def isToolCraftStep : GatherStep → Bool
  | GatherStep.craftToolsInvoke => true
  | _ => false

/-- A snapshot matching the testable-properties example: 3 logs and 8
planks, hence wood equivalent 5, well below the threshold of 20. -/
def c4ExampleEnv : GatherEnv :=
  { inventory := [("oak_log", 3), ("oak_planks", 8), ("wooden_axe", 1)]
  , craftingTableBlockNearby := true
  , tableRecipeFound := true
  , tableCraftSucceeds := true
  , plankRecipeFound := true
  , plankCraftSucceeds := true }

/-
=======================================================================
C5: the sleep check (handleSleeping)
=======================================================================
-/

/-- The world-client facts read by the entry condition of
handleSleeping. -/
structure SleepEnv where
  canSleep : Bool
  isDay : Bool
  isSleeping : Bool
deriving DecidableEq, Repr

/-- The entry condition of BotProperties.handleSleeping (line 839) exactly
as written, with the JavaScript precedence of && over ||. -/
def sleepCheckTriggers (e : SleepEnv) : Bool :=
  !e.canSleep || (!e.isDay && !e.isSleeping)

/-- Modelled from the spec (4.2) and the comment directly under the guard
itself: the sleep check is meant to trigger exactly when it is the
in-world night and the agent is not already sleeping, with sleeping
enabled for the agent. -/
def sleepCheckTriggersSpec (e : SleepEnv) : Bool :=
  e.canSleep && (!e.isDay && !e.isSleeping)

/-
=======================================================================
C6: tool crafting (craftBasicTools)
=======================================================================
-/

/-- The world-client responses consulted by craftBasicTools: which basic
tools are already held, whether a crafting table block is within the
3-block use radius and whether the agent stands within 3 blocks of it, and
the outcome of the recipe lookup and the craft call for each tool. -/
structure ToolEnv where
  hasWoodenAxe : Bool
  hasWoodenPickaxe : Bool
  tableNearby : Bool
  tableWithin3 : Bool
  recipeFound : String → Bool
  craftSucceeds : String → Bool

/-- The neededTools list built on lines 1059-1061. -/
def neededToolsOf (env : ToolEnv) : List String :=
  (if env.hasWoodenAxe then [] else ["wooden_axe"]) ++
  (if env.hasWoodenPickaxe then [] else ["wooden_pickaxe"])

/-- The outcome of one craftBasicTools call: the state it leaves the agent
in, the tools for which the craft primitive was actually invoked, the
needs-basic-resources flag, whether the call instead pathed towards the
table, and whether the final handleBasicResourceGathering re-evaluation
(reached only after every needed tool crafted) was entered. -/
structure CraftToolsResult where
  state : BotState
  attempted : List String
  needsBasicResources : Bool
  movedToTable : Bool
  reevaluated : Bool
deriving Repr

/-- The crafting loop of lines 1094-1118: tools are crafted one by one; a
missing recipe stops the loop without invoking the craft primitive for
that tool, a rejected craft stops it after the failed invocation; either
way the state reverts to idle and no later tool is attempted.  Only
falling off the end of the list reaches the re-evaluation of line 1123. -/
def craftToolsLoop (env : ToolEnv) (needs : Bool) :
    List String → List String → CraftToolsResult
  | attempted, [] =>
      { state := BotState.idle, attempted := attempted, needsBasicResources := needs
      , movedToTable := false, reevaluated := true }
  | attempted, tool :: rest =>
      if env.recipeFound tool then
        if env.craftSucceeds tool then
          craftToolsLoop env needs (attempted ++ [tool]) rest
        else
          { state := BotState.idle, attempted := attempted ++ [tool]
          , needsBasicResources := needs, movedToTable := false, reevaluated := false }
      else
        { state := BotState.idle, attempted := attempted, needsBasicResources := needs
        , movedToTable := false, reevaluated := false }

/-- BotProperties.craftBasicTools (src/unnamed/part_000 lines 1058-1124):
nothing to craft returns to idle; a missing or distant crafting table
aborts (or paths towards the table); otherwise the crafting loop runs. -/
def craftBasicTools (env : ToolEnv) (needs : Bool) : CraftToolsResult :=
  let needed := neededToolsOf env
  if needed.isEmpty then
    { state := BotState.idle, attempted := [], needsBasicResources := needs
    , movedToTable := false, reevaluated := false }
  else if env.tableNearby = false then
    { state := BotState.idle, attempted := [], needsBasicResources := needs
    , movedToTable := false, reevaluated := false }
  else if env.tableWithin3 = false then
    { state := BotState.movingToCraftingTable, attempted := [], needsBasicResources := needs
    , movedToTable := true, reevaluated := false }
  else craftToolsLoop env needs [] needed

/-- A concrete tool-crafting snapshot: both tools missing, the table in
reach, recipes known, and the craft primitive rejecting the axe. -/
def c6ExampleEnv : ToolEnv :=
  { hasWoodenAxe := false
  , hasWoodenPickaxe := false
  , tableNearby := true
  , tableWithin3 := true
  , recipeFound := fun _ => true
  , craftSucceeds := fun t => decide (t ≠ "wooden_axe") }

/-
=======================================================================
C7: the chat cooldown (chat and give)
=======================================================================
-/

/-- this.chatCooldown (line 487): five seconds, in milliseconds. -/
def chatCooldown : ℕ := 5000

/-- One announcement call of an agent: a cooldown-gated BotProperties.chat
call, or a direct this.mineflayerBot.chat call as give() issues for its
replies (lines 563, 566 and 572). -/
inductive ChatOp where
  | gatedChat (msg : String)
  | directChat (msg : String)
deriving DecidableEq, Repr

/-- One announcement at time now against the stored cooldown stamp.
BotProperties.chat (lines 1296-1302) emits and resets the stamp only when
now - lastChatTime exceeds the cooldown; a direct world-client chat always
emits and never touches the stamp. -/
def chatStep (lastChatTime now : ℕ) (op : ChatOp) : ℕ × Option (ℕ × String) :=
  match op with
  | ChatOp.gatedChat m =>
      if chatCooldown < now - lastChatTime then (now, some (now, m))
      else (lastChatTime, none)
  | ChatOp.directChat m => (lastChatTime, some (now, m))

/-- The messages an agent emits over a timed sequence of announcement
calls, starting from a given cooldown stamp (the constructor sets
this.lastChatTime to 0). -/
def runChat : ℕ → List (ℕ × ChatOp) → List (ℕ × String)
  | _, [] => []
  | lastChatTime, (t, op) :: rest =>
      match chatStep lastChatTime t op with
      | (last2, none) => runChat last2 rest
      | (last2, some e) => e :: runChat last2 rest

/-- The emission times of the gated chats alone. -/
def gatedTimes : ℕ → List (ℕ × ChatOp) → List ℕ
  | _, [] => []
  | lastChatTime, (t, op) :: rest =>
      match op with
      | ChatOp.gatedChat _ =>
          if chatCooldown < t - lastChatTime then t :: gatedTimes t rest
          else gatedTimes lastChatTime rest
      | ChatOp.directChat _ => gatedTimes lastChatTime rest

/-- A gated announcement followed one millisecond later by a give() reply:
the give path emits through the raw world-client chat. -/
def c7Trace : List (ℕ × ChatOp) :=
  [(6000, ChatOp.gatedChat "Following Bot2"),
   (6001, ChatOp.directChat "I dont have oak_log")]

/-
=======================================================================
Helper lemmas
=======================================================================
-/

theorem JSNum.nan_add (y : JSNum) : JSNum.add JSNum.nan y = JSNum.nan := by
  cases y <;> rfl

theorem JSNum.add_nan (x : JSNum) : JSNum.add x JSNum.nan = JSNum.nan := by
  cases x <;> rfl

theorem JSNum.nan_mul (y : JSNum) : JSNum.mul JSNum.nan y = JSNum.nan := by
  cases y <;> rfl

theorem JSNum.nan_minConst (c : ℚ) : JSNum.minConst JSNum.nan c = JSNum.nan := rfl

theorem calculateOverallProgress_nan (p : Progress)
    (h : p.bots = [] ∨ p.resources = [] ∨ p.coordinates = []) :
    calculateOverallProgress p = JSNum.nan := by
  rcases h with h | h | h <;>
    simp [calculateOverallProgress, h, dimAvg, JSNum.nan_mul, JSNum.add_nan,
      JSNum.nan_add, JSNum.nan_minConst]

theorem codeDevPro_mem_applyAdminOp (st : AdminState) (op : AdminOp)
    (h : "CodeDevPro" ∈ st.admins) : "CodeDevPro" ∈ (applyAdminOp st op).admins := by
  cases op with
  | add n =>
      simp only [applyAdminOp, addAdmin]
      split
      · exact h
      · simp only [setAdd]
        split
        · exact h
        · exact List.mem_append_left _ h
  | remove n =>
      simp only [applyAdminOp, removeAdmin]
      split
      · exact h
      · next hne =>
          simp only [setDelete, List.mem_filter, decide_eq_true_eq]
          exact ⟨h, fun hEq => hne hEq.symm⟩

theorem codeDevPro_mem_foldl (ops : List AdminOp) (st : AdminState)
    (h : "CodeDevPro" ∈ st.admins) :
    "CodeDevPro" ∈ (ops.foldl applyAdminOp st).admins := by
  induction ops generalizing st with
  | nil => exact h
  | cons op rest ih => exact ih _ (codeDevPro_mem_applyAdminOp st op h)

theorem lookup_append_self_isSome (l : List (String × TaskInfo)) (k : String) (v : TaskInfo) :
    (List.lookup k (l ++ [(k, v)])).isSome = true := by
  induction l with
  | nil => simp [List.lookup]
  | cons kv rest ih =>
      rcases kv with ⟨a, b⟩
      rw [List.cons_append, List.lookup]
      split
      · rfl
      · exact ih

/-
=======================================================================
C1: progress aggregation clamping and monotonicity
=======================================================================
-/

/-- C1 counterexample: a running task whose bot and resource dimensions
report 0 sees its overall progress drop from 30 to -60 when its bot ends
up 300 blocks from a target whose planned total distance was 100 — the
travel percentage (100 - 300) / 100 * 100 = -200 is not clamped below, so
the overall is negative (outside [0,100]) and strictly decreased. -/
theorem c1_counterexample :
    calculateOverallProgress c1Progress1 = JSNum.num 30 ∧
    calculateOverallProgress c1Progress2 = JSNum.num (-60) ∧
    ¬ ((0 : ℚ) ≤ -60) ∧ ((-60 : ℚ) < 30) := by
  refine ⟨?_, ?_, by norm_num, by norm_num⟩ <;>
    norm_num [calculateOverallProgress, c1Progress1, c1Progress2, getCoordinateProgress,
      coordinatePercent, dimAvg, dimSum, JSNum.add, JSNum.mul, JSNum.minConst]

/-- C1 (amended): each dimension entry produced by getResourceProgress or
getCoordinateProgress is clamped from above to at most 100 (but not from
below), and whenever all three dimension maps are nonempty the overall
progress is a number and is at most 100 — Math.min(overall, 100) clamps
only the upper end, so the overall may be negative and may decrease
between recomputations while the task is running. -/
theorem c1_overall_clamped_above_only (p : Progress)
    (hb : p.bots ≠ []) (hr : p.resources ≠ []) (hc : p.coordinates ≠ []) :
    (∃ q : ℚ, calculateOverallProgress p = JSNum.num q ∧ q ≤ 100) ∧
    (∀ current required : ℚ, resourcePercent current required ≤ 100) ∧
    (∀ distance totalDistance : ℚ, coordinatePercent distance totalDistance ≤ 100) := by
  refine ⟨?_, fun current required => min_le_right _ _,
    fun distance totalDistance => min_le_right _ _⟩
  have hb2 : dimAvg p.bots = JSNum.num (dimSum p.bots / (p.bots.length : ℚ)) := by
    simp [dimAvg, List.length_eq_zero, hb]
  have hr2 : dimAvg p.resources = JSNum.num (dimSum p.resources / (p.resources.length : ℚ)) := by
    simp [dimAvg, List.length_eq_zero, hr]
  have hc2 : dimAvg p.coordinates =
      JSNum.num (dimSum p.coordinates / (p.coordinates.length : ℚ)) := by
    simp [dimAvg, List.length_eq_zero, hc]
  refine ⟨min (0 + dimSum p.bots / (p.bots.length : ℚ) * (4 / 10)
      + dimSum p.resources / (p.resources.length : ℚ) * (3 / 10)
      + dimSum p.coordinates / (p.coordinates.length : ℚ) * (3 / 10)) 100, ?_,
    min_le_right _ _⟩
  simp [calculateOverallProgress, hb2, hr2, hc2, JSNum.add, JSNum.mul, JSNum.minConst]

/-- C1 witness: the amended clamp theorem applied to the concrete running
progress record c1Progress1. -/
theorem c1_overall_clamped_above_only_witness :
    c1Progress1.bots ≠ [] ∧
    (∃ q : ℚ, calculateOverallProgress c1Progress1 = JSNum.num q ∧ q ≤ 100) := by
  refine ⟨by simp [c1Progress1], ?_⟩
  exact (c1_overall_clamped_above_only c1Progress1 (by simp [c1Progress1])
    (by simp [c1Progress1]) (by simp [c1Progress1, getCoordinateProgress])).1

/-
=======================================================================
C9: the super admin cannot be removed
=======================================================================
-/

/-- C9: removeAdmin on the super admin CodeDevPro returns false and leaves
the admin state untouched; removeAdmin on any other name returns true and
deletes that name from both the admins set and the permissions map; hence
CodeDevPro is still an admin after any sequence of addAdmin/removeAdmin
calls on a freshly constructed CommandProcessor. -/
theorem c9_superadmin_immortal :
    (∀ st : AdminState, removeAdmin st "CodeDevPro" = (false, st)) ∧
    (∀ (st : AdminState) (name : String), name ≠ "CodeDevPro" →
        (removeAdmin st name).1 = true ∧
        name ∉ (removeAdmin st name).2.admins ∧
        ∀ v : AdminPerms, (name, v) ∉ (removeAdmin st name).2.adminPermissions) ∧
    (∀ ops : List AdminOp, "CodeDevPro" ∈ (runAdminOps ops).admins) := by
  refine ⟨fun st => by simp [removeAdmin], fun st name hne => ?_,
    fun ops => codeDevPro_mem_foldl ops initialAdminState (by simp [initialAdminState])⟩
  refine ⟨by simp [removeAdmin, hne], ?_, ?_⟩
  · simp [removeAdmin, hne, setDelete, List.mem_filter]
  · intro v
    simp [removeAdmin, hne, mapDelete, List.mem_filter]

/-- C9 witness: the theorem applied to a concrete admin called Eve and a
concrete call sequence that adds Eve, removes Eve and attempts to remove
CodeDevPro. -/
theorem c9_superadmin_immortal_witness :
    removeAdmin initialAdminState "CodeDevPro" = (false, initialAdminState) ∧
    "Eve" ∉ (removeAdmin initialAdminState "Eve").2.admins ∧
    "CodeDevPro" ∈
      (runAdminOps [AdminOp.add "Eve", AdminOp.remove "Eve",
        AdminOp.remove "CodeDevPro"]).admins := by
  refine ⟨c9_superadmin_immortal.1 initialAdminState, ?_, c9_superadmin_immortal.2.2 _⟩
  exact (c9_superadmin_immortal.2.1 initialAdminState "Eve" (by decide)).2.1

/-
=======================================================================
C10: empty dimension maps make the overall NaN
=======================================================================
-/

/-- C10: when any dimension map of a progress record is empty,
calculateOverallProgress divides the zero reduce-sum by the zero map size,
and the resulting NaN propagates through the weighting and the final
Math.min, so the overall is NaN and never any number; in particular the
freshly initialized record of initializeTaskTracking, whose resource and
coordinate maps are empty, never yields a numeric overall. -/
theorem c10_empty_dimension_nan :
    (∀ p : Progress, p.bots = [] ∨ p.resources = [] ∨ p.coordinates = [] →
        calculateOverallProgress p = JSNum.nan ∧
        ∀ q : ℚ, calculateOverallProgress p ≠ JSNum.num q) ∧
    (∀ (parsedBots : List String) (numSteps : ℕ),
        calculateOverallProgress (TaskProgress.toProgress (initTaskProgress parsedBots numSteps))
          = JSNum.nan) := by
  constructor
  · intro p h
    refine ⟨calculateOverallProgress_nan p h, ?_⟩
    intro q hq
    rw [calculateOverallProgress_nan p h] at hq
    exact JSNum.noConfusion hq
  · intro parsedBots numSteps
    exact calculateOverallProgress_nan _ (Or.inr (Or.inl rfl))

/-- C10 witness: the theorem applied to a concrete record with a bot entry
but an empty resource map. -/
theorem c10_empty_dimension_nan_witness :
    calculateOverallProgress
        { bots := [("Bot1", 0)], resources := [], coordinates := [("travel", 50)] }
      = JSNum.nan :=
  (c10_empty_dimension_nan.1
    { bots := [("Bot1", 0)], resources := [], coordinates := [("travel", 50)] }
    (Or.inr (Or.inl rfl))).1

/-
=======================================================================
C2: the tick boundary
=======================================================================
-/

/-- C2 counterexample: an exception thrown inside the tick's state action
while the agent is mid-gathering with an active navigation goal is caught
and logged by the tick handler, but the handler performs no transition to
idle and no goal clearing — after the catch the agent is still in a
non-idle state with a dangling goal. -/
theorem c2_counterexample :
    (tickWithCatch exThrowingUpdate exStuckAgent).state ≠ BotState.idle ∧
    (tickWithCatch exThrowingUpdate exStuckAgent).currentGoal ≠ none := by
  decide

/-- C2 (amended): an unhandled exception inside the tick's state action is
caught at the tick boundary and only logged; the agent keeps exactly the
state and goal it had when the exception escaped, and if the action keeps
throwing without changing the agent, every later tick leaves it in that
same (possibly non-idle, goal-carrying) configuration. -/
theorem c2_tick_catch_no_recovery
    (u : AgentCore → Except (String × AgentCore) AgentCore)
    (a aThrow : AgentCore) (msg : String)
    (h : u a = Except.error (msg, aThrow))
    (hstuck : ∃ msg2 : String, u aThrow = Except.error (msg2, aThrow)) :
    tickWithCatch u a = aThrow ∧
    ∀ n : ℕ, (tickWithCatch u)^[n] aThrow = aThrow := by
  constructor
  · simp [tickWithCatch, h]
  · intro n
    apply Function.iterate_fixed
    obtain ⟨m, hm⟩ := hstuck
    simp [tickWithCatch, hm]

/-- C2 witness: the amended theorem applied to the concrete throwing
update and the concrete stuck agent. -/
theorem c2_tick_catch_no_recovery_witness :
    tickWithCatch exThrowingUpdate exStuckAgent = exStuckAgent ∧
    (tickWithCatch exThrowingUpdate)^[7] exStuckAgent = exStuckAgent := by
  have h := c2_tick_catch_no_recovery exThrowingUpdate exStuckAgent exStuckAgent
    "Digging aborted" rfl ⟨"Digging aborted", rfl⟩
  exact ⟨h.1, h.2 7⟩

/-
=======================================================================
C3: setGoal deduplication
=======================================================================
-/

theorem sameGoal_self (g : Goal) : sameGoal g g = true := by
  simp [sameGoal]

theorem setGoal_same_noop (ns : NavState) (g : Goal) (ok : Bool)
    (h : ns.currentGoal = some g) : setGoal ns (some g) ok = (ns, []) := by
  simp [setGoal, h, sameGoal_self]

/-- C3: a setGoal call whose goal is structurally identical to the current
goal is a no-op — no stop request, no submission, no state change; and
setting the same goal twice from a state whose current goal is not already
identical to it issues exactly one world-client submission across the two
calls. -/
theorem c3_setGoal_dedup :
    (∀ (ns : NavState) (g : Goal) (ok : Bool),
        ns.currentGoal = some g → setGoal ns (some g) ok = (ns, [])) ∧
    (∀ (ns : NavState) (g : Goal),
        (∀ cur, ns.currentGoal = some cur → sameGoal cur g = false) →
        countSubmits (setGoal ns (some g) true).2 +
          countSubmits (setGoal (setGoal ns (some g) true).1 (some g) true).2 = 1) := by
  refine ⟨setGoal_same_noop, fun ns g h => ?_⟩
  have hsub1 : countSubmits (setGoal ns (some g) true).2 = 1 := by
    cases hcur : ns.currentGoal with
    | none =>
        cases hpf : ns.pathfinderGoal <;>
          simp [setGoal, hcur, setGoalProceed, countSubmits, hpf]
    | some cur =>
        cases hpf : ns.pathfinderGoal <;>
          simp [setGoal, hcur, h cur hcur, setGoalProceed, countSubmits, hpf]
  have hgoal1 : (setGoal ns (some g) true).1.currentGoal = some g := by
    cases hcur : ns.currentGoal with
    | none => simp [setGoal, hcur, setGoalProceed]
    | some cur => simp [setGoal, hcur, h cur hcur, setGoalProceed]
  rw [hsub1, setGoal_same_noop _ _ _ hgoal1]
  simp [countSubmits]

/-- C3 witness: the no-op on an identical goal and the single submission
of a double set, at concrete navigation states. -/
theorem c3_setGoal_dedup_witness :
    setGoal busyNavState (some exGoal) true = (busyNavState, []) ∧
    countSubmits (setGoal freshNavState (some exGoal) true).2 +
      countSubmits (setGoal (setGoal freshNavState (some exGoal) true).1
        (some exGoal) true).2 = 1 := by
  refine ⟨c3_setGoal_dedup.1 _ exGoal true rfl, c3_setGoal_dedup.2 freshNavState exGoal ?_⟩
  intro cur hcur
  simp [freshNavState] at hcur

/-
=======================================================================
C5: the sleep-check guard
=======================================================================
-/

/-- C5: the entry guard of handleSleeping is the expression
!canSleep || (!isDay && !isSleeping), so with sleeping disabled the check
triggers even in daytime, where the spec (and the comment inside the
function) demand night and not-already-sleeping with sleeping enabled —
at the input canSleep = false, isDay = true, isSleeping = false the code
enters the sleep branch while the specified condition is false. -/
theorem c5_sleep_guard_precedence_bug :
    sleepCheckTriggers { canSleep := false, isDay := true, isSleeping := false } = true ∧
    sleepCheckTriggersSpec { canSleep := false, isDay := true, isSleeping := false } = false ∧
    sleepCheckTriggers { canSleep := true, isDay := false, isSleeping := false } = true ∧
    sleepCheckTriggersSpec { canSleep := true, isDay := false, isSleeping := false } = true := by
  decide

/-
=======================================================================
C7: the chat cooldown
=======================================================================
-/

theorem gatedTimes_bound (ops : List (ℕ × ChatOp)) :
    ∀ lastChatTime : ℕ,
      (∀ t ∈ gatedTimes lastChatTime ops, lastChatTime + chatCooldown < t) ∧
      List.Chain' (fun a b => chatCooldown < b - a) (gatedTimes lastChatTime ops) := by
  induction ops with
  | nil => intro lastChatTime; simp [gatedTimes]
  | cons p rest ih =>
      intro lastChatTime
      obtain ⟨t, op⟩ := p
      cases op with
      | gatedChat m =>
          by_cases hc : chatCooldown < t - lastChatTime
          · have hrec := ih t
            rw [show gatedTimes lastChatTime ((t, ChatOp.gatedChat m) :: rest)
                = t :: gatedTimes t rest by simp [gatedTimes, hc]]
            constructor
            · intro s hs
              rcases List.mem_cons.mp hs with hs | hs
              · omega
              · have := hrec.1 s hs
                omega
            · refine List.chain'_cons'.mpr ⟨fun y hy => ?_, hrec.2⟩
              have := hrec.1 y (List.mem_of_mem_head? hy)
              omega
          · rw [show gatedTimes lastChatTime ((t, ChatOp.gatedChat m) :: rest)
                = gatedTimes lastChatTime rest by simp [gatedTimes, hc]]
            exact ih lastChatTime
      | directChat m =>
          rw [show gatedTimes lastChatTime ((t, ChatOp.directChat m) :: rest)
              = gatedTimes lastChatTime rest by simp [gatedTimes]]
          exact ih lastChatTime

/-- C7 counterexample: a cooldown-gated announcement at t = 6000 followed
one millisecond later by a give() reply, which goes through the raw
world-client chat: both messages are emitted although their timestamps are
1 ms apart, far inside the 5000 ms cooldown window. -/
theorem c7_counterexample :
    runChat 0 c7Trace = [(6000, "Following Bot2"), (6001, "I dont have oak_log")] ∧
    6001 - 6000 ≤ chatCooldown := by
  exact ⟨rfl, by norm_num [chatCooldown]⟩

/-- C7 (amended): messages emitted through the cooldown-gated
BotProperties.chat are never two within the cooldown window — each gated
emission is more than chatCooldown after the previous gated emission — but
give() replies bypass the gate via the raw world-client chat, so the
invariant does not extend to all announcement paths. -/
theorem c7_gated_chat_respects_cooldown :
    ∀ ops : List (ℕ × ChatOp),
      List.Chain' (fun a b => chatCooldown < b - a) (gatedTimes 0 ops) :=
  fun ops => (gatedTimes_bound ops 0).2

/-
=======================================================================
C4: stage discipline of the resource progression
=======================================================================
-/

theorem stationStage_stage (st : BotState) (env : GatherEnv) (needs : Bool) :
    stepStage (stationStageAction st env needs).step = some Stage.station := by
  simp only [stationStageAction]
  repeat' split
  all_goals rfl

theorem stationStage_noToolCraft (st : BotState) (env : GatherEnv) (needs : Bool) :
    isToolCraftStep (stationStageAction st env needs).step = false := by
  simp only [stationStageAction]
  repeat' split
  all_goals rfl

theorem toolsStage_stage (st : BotState) (env : GatherEnv) (needs : Bool) :
    stepStage (toolsStageAction st env needs).step = some Stage.tools := by
  simp only [toolsStageAction]
  repeat' split
  all_goals rfl

theorem toolsStage_noStationCraft (st : BotState) (env : GatherEnv) (needs : Bool) :
    isStationCraftStep (toolsStageAction st env needs).step = false := by
  simp only [toolsStageAction]
  repeat' split
  all_goals rfl

/-- C4: while the needs-basic-resources flag is set, every pass of the
planner acts in the stage dictated by the guard chain (raw below the wood
threshold, then station while no crafting table exists, then tools): a
tool-crafting invocation implies a crafting table exists in inventory or
placed, a station craft call implies the wood equivalent reached the
threshold of 20, and below the threshold the pass always forces gathering,
regardless of the agent's current state — no stage is skipped. -/
theorem c4_stage_discipline (needs : Bool) (st : BotState) (env : GatherEnv)
    (h : needs = true) :
    stepStage (handleBasicResourceGathering needs st env).step = some (stageOf env) ∧
    (isToolCraftStep (handleBasicResourceGathering needs st env).step = true →
        hasCraftingTableOf env = true) ∧
    (isStationCraftStep (handleBasicResourceGathering needs st env).step = true →
        requiredWoodCount ≤ woodEquivalent env.inventory) ∧
    (woodEquivalent env.inventory < requiredWoodCount →
        (handleBasicResourceGathering needs st env).step = GatherStep.toGatherWood) := by
  subst h
  by_cases hw : woodEquivalent env.inventory < requiredWoodCount
  · refine ⟨?_, ?_, ?_, fun _ => ?_⟩
    · simp [handleBasicResourceGathering, stageOf, hw, stepStage]
    · intro hcontra
      simp [handleBasicResourceGathering, hw, isToolCraftStep] at hcontra
    · intro hcontra
      simp [handleBasicResourceGathering, hw, isStationCraftStep] at hcontra
    · simp [handleBasicResourceGathering, hw]
  · by_cases htb : hasCraftingTableOf env = false
    · refine ⟨?_, ?_, fun _ => le_of_not_lt hw, fun hlt => absurd hlt hw⟩
      · simp only [handleBasicResourceGathering, stageOf, hw, htb]
        simp [stationStage_stage]
      · intro hcontra
        simp only [handleBasicResourceGathering, hw, htb] at hcontra
        simp [stationStage_noToolCraft] at hcontra
    · have htb2 : hasCraftingTableOf env = true := by
        revert htb; cases hasCraftingTableOf env <;> simp
      refine ⟨?_, fun _ => htb2, ?_, fun hlt => absurd hlt hw⟩
      · simp only [handleBasicResourceGathering, stageOf, hw, htb]
        simp [toolsStage_stage]
      · intro hcontra
        simp only [handleBasicResourceGathering, hw, htb] at hcontra
        simp [toolsStage_noStationCraft] at hcontra

/-- C4 witness: the discipline theorem applied to the example snapshot of
3 logs and 8 planks (wood equivalent 5, below the threshold): the pass
forces the gathering stage. -/
theorem c4_stage_discipline_witness :
    (handleBasicResourceGathering true BotState.idle c4ExampleEnv).step
      = GatherStep.toGatherWood ∧
    stepStage (handleBasicResourceGathering true BotState.idle c4ExampleEnv).step
      = some (stageOf c4ExampleEnv) := by
  have h := c4_stage_discipline true BotState.idle c4ExampleEnv rfl
  have hwood : woodEquivalent c4ExampleEnv.inventory < requiredWoodCount := by
    have : woodEquivalent c4ExampleEnv.inventory = 5 := by
      simp [woodEquivalent, c4ExampleEnv, woodItems, strEndsWith, leadMatch]
      norm_num
    rw [this, requiredWoodCount]
    norm_num
  exact ⟨h.2.2.2 hwood, h.1⟩

/-
=======================================================================
C6: a tool-craft failure aborts the batch
=======================================================================
-/

/-- C6: with the crafting table in reach, if crafting a required tool
fails — the recipe lookup comes back empty or the craft primitive rejects
— the agent reverts to idle, the remaining tools of the batch are not
attempted in that cycle, and the needs-basic-resources flag remains set. -/
theorem c6_tool_craft_failure_aborts (env : ToolEnv)
    (htable : env.tableNearby = true) (hnear : env.tableWithin3 = true) :
    (env.hasWoodenAxe = false →
      (env.recipeFound "wooden_axe" = false ∨ env.craftSucceeds "wooden_axe" = false) →
      (craftBasicTools env true).state = BotState.idle ∧
      (craftBasicTools env true).needsBasicResources = true ∧
      "wooden_pickaxe" ∉ (craftBasicTools env true).attempted) ∧
    (env.hasWoodenPickaxe = false →
      (env.hasWoodenAxe = true ∨
        (env.recipeFound "wooden_axe" = true ∧ env.craftSucceeds "wooden_axe" = true)) →
      (env.recipeFound "wooden_pickaxe" = false ∨ env.craftSucceeds "wooden_pickaxe" = false) →
      (craftBasicTools env true).state = BotState.idle ∧
      (craftBasicTools env true).needsBasicResources = true) := by
  constructor
  · intro hax hfail
    cases hpick : env.hasWoodenPickaxe <;>
    rcases hfail with hf | hf
    · simp [craftBasicTools, neededToolsOf, hax, hpick, htable, hnear, craftToolsLoop, hf]
    · by_cases hr : env.recipeFound "wooden_axe" = true
      · simp [craftBasicTools, neededToolsOf, hax, hpick, htable, hnear, craftToolsLoop, hr, hf]
      · simp [craftBasicTools, neededToolsOf, hax, hpick, htable, hnear, craftToolsLoop, hr]
    · simp [craftBasicTools, neededToolsOf, hax, hpick, htable, hnear, craftToolsLoop, hf]
    · by_cases hr : env.recipeFound "wooden_axe" = true
      · simp [craftBasicTools, neededToolsOf, hax, hpick, htable, hnear, craftToolsLoop, hr, hf]
      · simp [craftBasicTools, neededToolsOf, hax, hpick, htable, hnear, craftToolsLoop, hr]
  · intro hpick hok hfail
    have hcase : env.hasWoodenAxe = true ∨
        (env.hasWoodenAxe = false ∧ env.recipeFound "wooden_axe" = true ∧
          env.craftSucceeds "wooden_axe" = true) := by
      cases hax : env.hasWoodenAxe
      · rcases hok with hok | hok
        · exact absurd hok (by simp [hax])
        · exact Or.inr ⟨rfl, hok⟩
      · exact Or.inl rfl
    rcases hcase with hax | ⟨hax, hr, hcs⟩ <;>
    rcases hfail with hf | hf
    · simp [craftBasicTools, neededToolsOf, hax, hpick, htable, hnear, craftToolsLoop, hf]
    · by_cases hr2 : env.recipeFound "wooden_pickaxe" = true
      · simp [craftBasicTools, neededToolsOf, hax, hpick, htable, hnear, craftToolsLoop, hr2, hf]
      · simp [craftBasicTools, neededToolsOf, hax, hpick, htable, hnear, craftToolsLoop, hr2]
    · simp [craftBasicTools, neededToolsOf, hax, hpick, htable, hnear, craftToolsLoop,
        hr, hcs, hf]
    · by_cases hr2 : env.recipeFound "wooden_pickaxe" = true
      · simp [craftBasicTools, neededToolsOf, hax, hpick, htable, hnear, craftToolsLoop,
          hr, hcs, hr2, hf]
      · simp [craftBasicTools, neededToolsOf, hax, hpick, htable, hnear, craftToolsLoop,
          hr, hcs, hr2]

/-- C6 witness: the abort theorem applied to the concrete snapshot in
which both tools are missing and the craft primitive rejects the axe. -/
theorem c6_tool_craft_failure_aborts_witness :
    (craftBasicTools c6ExampleEnv true).state = BotState.idle ∧
    (craftBasicTools c6ExampleEnv true).needsBasicResources = true ∧
    "wooden_pickaxe" ∉ (craftBasicTools c6ExampleEnv true).attempted :=
  (c6_tool_craft_failure_aborts c6ExampleEnv rfl rfl).1 rfl (Or.inr (by decide))

/-
=======================================================================
C8: privilege checks on the two command paths
=======================================================================
-/

/-- C8 counterexample: the natural-language path performs no privilege
check — the command "Bot1 teleport to base" parses to the admin-only
teleport action, the requester Mallory is not in the admins set, and yet
processNaturalCommand records a new task for it. -/
theorem c8_counterexample :
    (parseNaturalCommand c8Orchestrator "Bot1 teleport to base").action
      = some ("movement", "teleport") ∧
    lookupCommand c8Orchestrator "teleport" = some { admin_only := true } ∧
    isAdminOf c8Orchestrator "Mallory" = false ∧
    (List.lookup "task_1"
        (processNaturalCommand c8Orchestrator "Bot1 teleport to base" "Mallory"
          "task_1" 2).activeTasks).isSome = true := by
  refine ⟨by decide, by decide, by decide, by decide⟩

/-- C8 (amended): on the structured processCommand path a command whose
entry in the commands table is marked admin_only is rejected before any
handler runs when the requesting username is not in the admins set; the
natural-language path performs no such check and records a new task for
every command, whoever submits it. -/
theorem c8_admin_gate_structured_path_only (o : Orchestrator) (cd : CommandData)
    (c : CommandDef)
    (hlook : lookupCommand o cd.action = some c)
    (hpriv : c.admin_only = true)
    (hadm : cd.username ∉ o.admins) :
    processCommand o cd = CmdOutcome.rejectedUnauthorized ∧
    ∀ (command username taskId : String) (steps : ℕ),
      (List.lookup taskId
          (processNaturalCommand o command username taskId steps).activeTasks).isSome
        = true := by
  constructor
  · simp [processCommand, hlook, hpriv, isAdminOf, hadm]
  · intro command username taskId steps
    simp only [processNaturalCommand, initializeTaskTracking]
    exact lookup_append_self_isSome _ _ _

/-- C8 witness: the amended theorem applied to the concrete orchestrator,
the structured teleport command of Mallory, and a concrete natural
command. -/
theorem c8_admin_gate_structured_path_only_witness :
    processCommand c8Orchestrator
        { type := "action", action := "teleport", target := "Bot1", username := "Mallory" }
      = CmdOutcome.rejectedUnauthorized ∧
    (List.lookup "task_9"
        (processNaturalCommand c8Orchestrator "Bot1 teleport to base" "Mallory"
          "task_9" 3).activeTasks).isSome = true := by
  have h := c8_admin_gate_structured_path_only c8Orchestrator
    { type := "action", action := "teleport", target := "Bot1", username := "Mallory" }
    { admin_only := true } (by decide) rfl (by decide)
  exact ⟨h.1, h.2 "Bot1 teleport to base" "Mallory" "task_9" 3⟩

end MincBot
